import Mathlib

/-!
Shallow embedding of the fact-loading pipeline of `import.py`
(chunked ingestion into a star-schema warehouse).

Modelling conventions, stated once:
* Python `float` cells read by pandas are modelled as `Option ℚ` (`none` is NaN,
  i.e. a missing cell); the comparisons the code performs on them
  (`float(val) <= 0`, `<= 0` on a column) are exact order comparisons, so ℚ is
  a faithful carrier for every branch the code takes on them.
* Python `int(...)` applied to a float truncates toward zero: `pyIntOfRat`.
* String cells (the fact pass reads the natural-key columns with `dtype=str`)
  are `Option String`; `pd.isna` is `Option.isNone`.
* Python dict/set membership state (the global invoice tracker, the per-chunk
  seen-set, the missing-key sets) is modelled as lists read through `∈`;
  insertion is cons.  Only membership is ever consumed by the code.
* A calendar date is `PDate`: the year together with the ordinal position of
  the day inside the year, ordered lexicographically, which is exactly the
  order the sort on the Date column sorts by; `str(date)` is injective, so
  the date cache is keyed by `PDate` directly.
-/

/-- A calendar date: year and ordinal day within the year. -/
structure PDate where
  y : Int
  o : Nat
deriving DecidableEq, Repr

/-- The order used by the sort on the Date column (chronological order). -/
def pdateLE (a b : PDate) : Bool :=
  decide (a.y < b.y ∨ (a.y = b.y ∧ a.o ≤ b.o))

/-- Character class test for ASCII decimal digits, by code point. -/
def isDigitChar (c : Char) : Bool :=
  decide (48 ≤ c.toNat ∧ c.toNat ≤ 57)

/-- Python `str.strip` whitespace class (ASCII part: space, TAB, LF, VT, FF, CR). -/
def isSpaceChar (c : Char) : Bool :=
  decide (c.toNat = 32 ∨ c.toNat = 9 ∨ c.toNat = 10 ∨ c.toNat = 11 ∨
          c.toNat = 12 ∨ c.toNat = 13)

/-- Python `str.strip()`: drop whitespace from both ends. -/
def pyStrip (l : List Char) : List Char :=
  ((l.dropWhile isSpaceChar).reverse.dropWhile isSpaceChar).reverse

/-- Python `str.lower()` on one ASCII character. -/
def pyLowerChar (c : Char) : Char :=
  if 65 ≤ c.toNat ∧ c.toNat ≤ 90 then Char.ofNat (c.toNat + 32) else c

/-- Python `str.lower()`. -/
def pyLower (l : List Char) : List Char := l.map pyLowerChar

/-- Helper for the digit grammar of Python `int(str)`: after the first digit,
underscores are allowed only singly and only between digits. -/
def pyDigitsAux : List Char → Bool
  | [] => true
  | c :: rest =>
    if c = '_' then
      match rest with
      | [] => false
      | d :: rs => isDigitChar d && pyDigitsAux rs
    else
      isDigitChar c && pyDigitsAux rest

/-- The body of a Python integer literal (after an optional sign): a nonempty
digit string with optional single underscores between digits. -/
def validIntBody (l : List Char) : Bool :=
  match l with
  | [] => false
  | c :: rest => isDigitChar c && pyDigitsAux rest

/-- Numeric value of a digit string (underscores removed by the caller). -/
def digitsToNat (l : List Char) : Nat :=
  l.foldl (fun n c => 10 * n + (c.toNat - 48)) 0

/-- Remove the underscore separators of an integer literal. -/
def dropUnderscores (l : List Char) : List Char :=
  l.filter (fun c => c != '_')

/-- The sign-and-body analysis of Python `int(str)` after whitespace was
stripped. -/
def pyIntBody : List Char → Option Int
  | [] => none
  | c :: rest =>
    if c = '+' then
      if validIntBody rest then some (digitsToNat (dropUnderscores rest) : Int) else none
    else if c = '-' then
      if validIntBody rest then some (-(digitsToNat (dropUnderscores rest) : Int)) else none
    else
      if validIntBody (c :: rest) then
        some (digitsToNat (dropUnderscores (c :: rest)) : Int)
      else none

/-- Python `int(str)`: strip whitespace, optional sign, digit body; failure is
`none` (the callers catch `ValueError`). -/
def pyIntOfChars (l : List Char) : Option Int := pyIntBody (pyStrip l)

/-- The startswith test of `safe_convert_to_int`: drop a leading `x`. -/
def stripLeadingX : List Char → List Char
  | [] => []
  | c :: rest => if c = 'x' then rest else c :: rest

/-- Core of `safe_convert_to_int` on the character list of `str(val)`:
strip and lowercase, drop a leading `x` if present, then parse as an
integer. -/
def safeConvertChars (l : List Char) : Option Int :=
  pyIntOfChars (stripLeadingX (pyLower (pyStrip l)))

/-- Embedding of `safe_convert_to_int` (import.py lines 67-78): `None` for a
missing cell, and conversion failures return `none` instead of raising. -/
def safe_convert_to_int : Option String → Option Int
  | none => none
  | some s => safeConvertChars s.data

/-- Python `int()` applied to an exact rational (what `int(float_value)` does on
the values the code feeds it): truncation toward zero. -/
def pyIntOfRat (q : ℚ) : Int :=
  if 0 ≤ q then ((q.num.toNat / q.den : Nat) : Int)
  else -(((-q).num.toNat / (-q).den : Nat) : Int)

/-- An invoice key: the pair (invoice identifier, transaction year), exactly
the tuple `(invoice_item_number, year)` used by the tracker. -/
abbrev InvKey := String × Int

/-- The columns of one raw fact row that `process_chunk` reads.  Numeric
measure cells are `Option ℚ` (pandas floats with NaN); the three natural-key
columns are read with `dtype=str`, hence `Option String`. -/
structure Row where
  date : PDate
  invoice : Option String
  storeNumber : Option String
  vendorNumber : Option String
  itemNumber : Option String
  bottleCost : Option ℚ
  bottleRetail : Option ℚ
  bottlesSold : Option ℚ
  saleDollars : Option ℚ
  volumeLiters : Option ℚ
  volumeGallons : Option ℚ
deriving DecidableEq, Repr

/-- One validated, key-resolved fact record, as appended by `process_chunk`
(import.py lines 557-570). -/
structure FactRecord where
  date_key : Int
  year : Int
  store_key : Int
  product_key : Int
  vendor_key : Int
  invoice_item_number : String
  state_bottle_cost : ℚ
  state_bottle_retail : ℚ
  bottles_sold : Int
  sale_dollars : ℚ
  volume_sold_liters : ℚ
  volume_sold_gallons : ℚ
deriving DecidableEq, Repr

/-- The `DimensionCache` of import.py lines 43-49: natural key to surrogate
key, one mapping per dimension.  The date cache is keyed by the date value
(`str(date)` is injective on dates). -/
structure DimensionCache where
  date_cache : PDate → Option Int
  store_cache : Int → Option Int
  product_cache : Int → Option Int
  vendor_cache : Int → Option Int

/-- Python truthiness test applied to a cache lookup result: `not key` is true
for `None` and for the integer 0. -/
def falsyKey : Option Int → Bool
  | none => true
  | some k => decide (k = 0)

/-- Python truthiness test for the invoice cell: `pd.isna(x) or not x` is true
for a missing cell and for the empty string. -/
def invoiceFalsy : Option String → Bool
  | none => true
  | some s => decide (s = "")

/-- The invoice key of a row: `(invoice_item_number, year)` where the year
comes from the Date column. -/
def rowKey (r : Row) : InvKey := (r.invoice.getD "", r.date.y)

/-- The six required numeric measure cells of a row (import.py lines 514-521). -/
def requiredMeasures (r : Row) : List (Option ℚ) :=
  [r.bottleCost, r.bottleRetail, r.bottlesSold, r.saleDollars,
   r.volumeLiters, r.volumeGallons]

/-- One conjunct of the skip test of line 523: `pd.isna(val) or float(val) <= 0`. -/
def badMeasure : Option ℚ → Bool
  | none => true
  | some q => decide (q ≤ 0)

/-- The skip test of import.py line 523 over all six required measures. -/
def anyBadMeasure (r : Row) : Bool := (requiredMeasures r).any badMeasure

/-- The per-chunk processing state of `process_chunk`: the accumulators of
lines 478-483 together with the shared global invoice tracker. -/
structure ChunkState where
  fact_records : List FactRecord
  missing_products : List Int
  missing_vendors : List Int
  missing_stores : List Int
  chunk_seen : List InvKey
  tracker : List InvKey
  duplicate_count : Nat
deriving DecidableEq, Repr

/-- Lines 509-511: mark the key as seen locally and claim it in the global
tracker.  This is the only mutation either set ever receives. -/
def claimKey (st : ChunkState) (k : InvKey) : ChunkState :=
  { st with chunk_seen := k :: st.chunk_seen, tracker := k :: st.tracker }

/-- The parsed store natural key of a row (used after the None-check passed). -/
def storeNum (r : Row) : Int := (safe_convert_to_int r.storeNumber).getD 0

/-- The parsed vendor natural key of a row. -/
def vendorNum (r : Row) : Int := (safe_convert_to_int r.vendorNumber).getD 0

/-- The parsed item natural key of a row. -/
def itemNum (r : Row) : Int := (safe_convert_to_int r.itemNumber).getD 0

/-- The record appended at lines 557-570, built from a row whose checks all
passed (so every `getD` below reads a present value). -/
def mkFactOf (cache : DimensionCache) (r : Row) : FactRecord :=
  { date_key := (cache.date_cache r.date).getD 0,
    year := r.date.y,
    store_key := (cache.store_cache (storeNum r)).getD 0,
    product_key := (cache.product_cache (itemNum r)).getD 0,
    vendor_key := (cache.vendor_cache (vendorNum r)).getD 0,
    invoice_item_number := r.invoice.getD "",
    state_bottle_cost := r.bottleCost.getD 0,
    state_bottle_retail := r.bottleRetail.getD 0,
    bottles_sold := pyIntOfRat (r.bottlesSold.getD 0),
    sale_dollars := r.saleDollars.getD 0,
    volume_sold_liters := r.volumeLiters.getD 0,
    volume_sold_gallons := r.volumeGallons.getD 0 }

/-- The per-row body of the loop of `process_chunk` (import.py lines 488-577),
with the branches in source order: invoice falsiness, local seen-set, global
tracker, claim, measures, natural-key parses, the four cache lookups tested
for falsiness (store, vendor, product, then date, the last skipping silently),
and finally the append of the fact record. -/
def processRow (cache : DimensionCache) (st : ChunkState) (r : Row) : ChunkState :=
  if invoiceFalsy r.invoice then st
  else if rowKey r ∈ st.chunk_seen then st
  else if rowKey r ∈ st.tracker then
    { st with duplicate_count := st.duplicate_count + 1 }
  else if anyBadMeasure r then claimKey st (rowKey r)
  else if (safe_convert_to_int r.storeNumber).isNone ∨
          (safe_convert_to_int r.vendorNumber).isNone ∨
          (safe_convert_to_int r.itemNumber).isNone then claimKey st (rowKey r)
  else if falsyKey (cache.store_cache (storeNum r)) then
    { claimKey st (rowKey r) with missing_stores := storeNum r :: st.missing_stores }
  else if falsyKey (cache.vendor_cache (vendorNum r)) then
    { claimKey st (rowKey r) with missing_vendors := vendorNum r :: st.missing_vendors }
  else if falsyKey (cache.product_cache (itemNum r)) then
    { claimKey st (rowKey r) with missing_products := itemNum r :: st.missing_products }
  else if falsyKey (cache.date_cache r.date) then claimKey st (rowKey r)
  else
    { claimKey st (rowKey r) with
        fact_records := st.fact_records ++ [mkFactOf cache r] }

/-- Stable insertion into a date-sorted list; ties keep the earlier element
first. -/
def insertByDate (r : Row) : List Row → List Row
  | [] => [r]
  | s :: ss => if pdateLE r.date s.date then r :: s :: ss else s :: insertByDate r ss

/-- The date sort of import.py line 486 (sort_values on the Date column),
modelled as a sort that keeps input order on equal dates. -/
def sortByDate : List Row → List Row
  | [] => []
  | r :: rs => insertByDate r (sortByDate rs)

/-- The initial `process_chunk` state: empty accumulators and the global
tracker as it stands when the chunk starts. -/
def initChunkState (tracker : List InvKey) : ChunkState :=
  { fact_records := [], missing_products := [], missing_vendors := [],
    missing_stores := [], chunk_seen := [], tracker := tracker,
    duplicate_count := 0 }

/-- Embedding of `process_chunk` (import.py lines 474-590): sort the chunk by
date, then run the per-row body over it, threading the accumulators and the
global tracker. -/
def process_chunk (chunk : List Row) (cache : DimensionCache)
    (tracker : List InvKey) : ChunkState :=
  (sortByDate chunk).foldl (processRow cache) (initChunkState tracker)

/-- Embedding of `check_existing_invoices` (import.py lines 453-472): insert
every existing `(invoice_item_number, year)` pair of the fact table into the
tracker. -/
def check_existing_invoices (rows : List InvKey) (tracker : List InvKey) :
    List InvKey :=
  rows.foldl (fun t k => k :: t) tracker

/-- The checkpoint directory: pairs of the numeric timestamp embedded in the
file name `invoice_tracker_<t>.pkl` and the pickled tracker contents.  The
file name is determined by the timestamp, so a save with an already-present
timestamp overwrites that file. -/
abbrev CheckpointStore := List (Nat × List InvKey)

/-- Embedding of `save_tracker_checkpoint` (import.py lines 662-675): write
the tracker under the file name tagged with the current integer timestamp,
replacing a file of the same name. -/
def save_tracker_checkpoint (t : Nat) (tracker : List InvKey)
    (store : CheckpointStore) : CheckpointStore :=
  (t, tracker) :: store.filter (fun p => p.1 != t)

/-- The selection of line 691: the checkpoint whose embedded timestamp is
greatest (Python max keeps the first maximal element; distinct files always
have distinct timestamps). -/
def pickLatest : CheckpointStore → Option (Nat × List InvKey)
  | [] => none
  | p :: ps => some (ps.foldl (fun best q => if best.1 < q.1 then q else best) p)

/-- Embedding of `load_tracker_checkpoint` (import.py lines 677-702): `none`
when no checkpoint file exists, otherwise the unpickled contents of the
checkpoint with the highest embedded timestamp. -/
def load_tracker_checkpoint (store : CheckpointStore) : Option (List InvKey) :=
  (pickLatest store).map Prod.snd

/-- Embedding of `validate_date_keys` (import.py lines 166-186).  The inputs
are the `(date_key, date)` rows of `dim_date` and the size of the date cache.
The body only runs when `MIN(date)` and `MAX(date)` are non-NULL, i.e. when
the table is non-empty; it raises when the row count differs from the cache
size. -/
def validate_date_keys (dbDates : List (Int × PDate)) (dateCacheSize : Nat) :
    Except String Unit :=
  match dbDates with
  | [] => Except.ok ()
  | _ :: _ =>
    if dbDates.length ≠ dateCacheSize then Except.error "Date cache is incomplete"
    else Except.ok ()

/-- Embedding of `validate_product_cache` (import.py lines 369-390): raise
exactly when the product cache size differs from the `dim_product` row
count. -/
def validate_product_cache (dbCount : Nat) (productCacheSizeArg : Nat) :
    Except String Unit :=
  if productCacheSizeArg ≠ dbCount then Except.error "Product cache is incomplete"
  else Except.ok ()

/-- Lines 305-306 of `process_all_products`: a missing Bottle Volume becomes
750, then any value at most 0 is replaced by 750. -/
def fixBottleVolume (v : Option ℚ) : ℚ :=
  if (v.getD 750) ≤ 0 then 750 else v.getD 750

/-- Line 321: the loaded `bottle_volume_ml` value, `int(float(...))` of the
fixed column value. -/
def loadedBottleVolume (v : Option ℚ) : Int := pyIntOfRat (fixBottleVolume v)

/-- The membership test of import.py line 505 (`invoice_key in
GLOBAL_INVOICE_TRACKER`), one atomic interpreter step under the GIL. -/
def tryClaimCheck (tracker : List InvKey) (k : InvKey) : Bool :=
  decide (k ∈ tracker)

/-- The insertion of import.py line 511 (`GLOBAL_INVOICE_TRACKER[invoice_key]
= True`), a separate atomic interpreter step. -/
def tryClaimInsert (tracker : List InvKey) (k : InvKey) : List InvKey :=
  k :: tracker

/-- Two callers racing on the same key, scheduled check-check-insert-insert:
a thread switch between line 505 and line 511 is possible because they are
separate statements with no lock around them.  Each component of the result
is the outcome one caller acts on: true means the caller saw the key absent
and proceeds to load the row. -/
def interleavedClaims (t0 : List InvKey) (k : InvKey) : Bool × Bool :=
  let sawA := tryClaimCheck t0 k
  let sawB := tryClaimCheck t0 k
  (!sawA, !sawB)

/-- The claim sequence as the program actually executes it: `process_chunk`
is invoked only from the single main loop (import.py line 822), so the check
of line 505 and the insert of line 511 of one caller run back to back with no
interleaving. -/
def tryClaimSeq (tracker : List InvKey) (k : InvKey) : Bool × List InvKey :=
  if k ∈ tracker then (false, tracker) else (true, k :: tracker)

/-- n serialized callers claiming the same key one after the other; the list
holds the outcome of each caller in order. -/
def runClaimsSeq (tracker : List InvKey) (k : InvKey) : Nat → List Bool
  | 0 => []
  | n + 1 =>
    (tryClaimSeq tracker k).1 :: runClaimsSeq (tryClaimSeq tracker k).2 k n

/-- A small concrete dimension cache used by the concrete evaluations below.
Store number 99 deliberately resolves to the surrogate key 0 and date
⟨2021, 40⟩ resolves to 0, to exercise the falsiness branches. -/
def exCache : DimensionCache :=
  { date_cache := fun d =>
      if d = ⟨2020, 100⟩ then some 7
      else if d = ⟨2020, 50⟩ then some 8
      else if d = ⟨2020, 60⟩ then some 9
      else if d = ⟨2021, 40⟩ then some 0 else none,
    store_cache := fun n => if n = 10 then some 3 else if n = 99 then some 0 else none,
    product_cache := fun n => if n = 20 then some 4 else none,
    vendor_cache := fun n => if n = 30 then some 5 else none }

/-- A fully valid row: every check of `process_chunk` passes on it. -/
def exRowGood : Row :=
  { date := ⟨2020, 100⟩, invoice := some "INV200",
    storeNumber := some "10", vendorNumber := some "30", itemNumber := some "20",
    bottleCost := some 2, bottleRetail := some 3, bottlesSold := some 6,
    saleDollars := some 18, volumeLiters := some 4, volumeGallons := some 1 }

/-- The record `process_chunk` emits for `exRowGood`. -/
def exFact : FactRecord := mkFactOf exCache exRowGood

/-- A row that claims its key and then fails the measures check: used as the
first row of the C4 counterexample and elsewhere.  Its Bottles Sold is -5. -/
def c4RowBad : Row :=
  { date := ⟨2020, 50⟩, invoice := some "INV100",
    storeNumber := some "10", vendorNumber := some "30", itemNumber := some "20",
    bottleCost := some 2, bottleRetail := some 3, bottlesSold := some (-5),
    saleDollars := some 18, volumeLiters := some 4, volumeGallons := some 1 }

/-- A fully valid row carrying the same invoice key as `c4RowBad` but a later
date and different measures. -/
def c4RowGood : Row :=
  { date := ⟨2020, 60⟩, invoice := some "INV100",
    storeNumber := some "10", vendorNumber := some "30", itemNumber := some "20",
    bottleCost := some 2, bottleRetail := some 3, bottlesSold := some 6,
    saleDollars := some 18, volumeLiters := some 4, volumeGallons := some 1 }

/-- A fully valid row, the earlier of the C4 witness pair. -/
def c4wRow1 : Row :=
  { date := ⟨2020, 50⟩, invoice := some "INV300",
    storeNumber := some "10", vendorNumber := some "30", itemNumber := some "20",
    bottleCost := some 2, bottleRetail := some 3, bottlesSold := some 6,
    saleDollars := some 18, volumeLiters := some 4, volumeGallons := some 1 }

/-- A fully valid row with the same invoice key as `c4wRow1`, a later date and
different measures. -/
def c4wRow2 : Row :=
  { date := ⟨2020, 60⟩, invoice := some "INV300",
    storeNumber := some "10", vendorNumber := some "30", itemNumber := some "20",
    bottleCost := some 5, bottleRetail := some 7, bottlesSold := some 2,
    saleDollars := some 10, volumeLiters := some 1, volumeGallons := some 1 }

/-- A row whose Bottles Sold is the positive fraction 1/2: it passes the
strict-positivity check, and the record stores its truncation 0. -/
def c5Row : Row :=
  { date := ⟨2020, 100⟩, invoice := some "INV500",
    storeNumber := some "10", vendorNumber := some "30", itemNumber := some "20",
    bottleCost := some 2, bottleRetail := some 3, bottlesSold := some (mkRat 1 2),
    saleDollars := some 18, volumeLiters := some 4, volumeGallons := some 1 }

/-- A valid row whose store natural key resolves to the surrogate key 0 in
`exCache`. -/
def c10RowStore : Row :=
  { date := ⟨2020, 100⟩, invoice := some "INV900",
    storeNumber := some "99", vendorNumber := some "30", itemNumber := some "20",
    bottleCost := some 2, bottleRetail := some 3, bottlesSold := some 6,
    saleDollars := some 18, volumeLiters := some 4, volumeGallons := some 1 }

/-- A valid row whose date resolves to the surrogate key 0 in `exCache`. -/
def c10RowDate : Row :=
  { date := ⟨2021, 40⟩, invoice := some "INV901",
    storeNumber := some "10", vendorNumber := some "30", itemNumber := some "20",
    bottleCost := some 2, bottleRetail := some 3, bottlesSold := some 6,
    saleDollars := some 18, volumeLiters := some 4, volumeGallons := some 1 }

/-- The tracking invariant threaded through a chunk run: the initial tracker
stays inside the tracker, every locally seen key is in the tracker, and no
emitted record carries a key that was in the initial tracker. -/
def TrackInv (t0 : List InvKey) (st : ChunkState) : Prop :=
  (∀ k, k ∈ t0 → k ∈ st.tracker) ∧
  (∀ k, k ∈ st.chunk_seen → k ∈ st.tracker) ∧
  (∀ fr, fr ∈ st.fact_records → (fr.invoice_item_number, fr.year) ∉ t0)

/-- The measure invariant on emitted records: the five rational measures are
strictly positive and the truncated bottle count is non-negative. -/
def MeasuresInv (st : ChunkState) : Prop :=
  ∀ fr, fr ∈ st.fact_records →
    0 < fr.state_bottle_cost ∧ 0 < fr.state_bottle_retail ∧
    0 ≤ fr.bottles_sold ∧ 0 < fr.sale_dollars ∧
    0 < fr.volume_sold_liters ∧ 0 < fr.volume_sold_gallons

theorem TrackInv_of_eq (t0 : List InvKey) (st st2 : ChunkState) (k : InvKey)
    (he1 : st2.tracker = k :: st.tracker)
    (he2 : st2.chunk_seen = k :: st.chunk_seen)
    (he3 : st2.fact_records = st.fact_records)
    (h : TrackInv t0 st) : TrackInv t0 st2 := by
  obtain ⟨h1, h2, h3⟩ := h
  refine ⟨fun a ha => ?_, fun a ha => ?_, fun fr hfr => ?_⟩
  · rw [he1]; exact List.mem_cons_of_mem _ (h1 a ha)
  · rw [he1]
    rw [he2] at ha
    rcases List.mem_cons.mp ha with h | h
    · exact h ▸ List.mem_cons_self _ _
    · exact List.mem_cons_of_mem _ (h2 a h)
  · rw [he3] at hfr; exact h3 fr hfr

theorem TrackInv_of_emit (t0 : List InvKey) (st st2 : ChunkState) (k : InvKey)
    (fr0 : FactRecord)
    (he1 : st2.tracker = k :: st.tracker)
    (he2 : st2.chunk_seen = k :: st.chunk_seen)
    (he3 : st2.fact_records = st.fact_records ++ [fr0])
    (hk : (fr0.invoice_item_number, fr0.year) = k)
    (hnt : k ∉ st.tracker)
    (h : TrackInv t0 st) : TrackInv t0 st2 := by
  obtain ⟨h1, h2, h3⟩ := h
  refine ⟨fun a ha => ?_, fun a ha => ?_, fun fr hfr => ?_⟩
  · rw [he1]; exact List.mem_cons_of_mem _ (h1 a ha)
  · rw [he1]
    rw [he2] at ha
    rcases List.mem_cons.mp ha with h | h
    · exact h ▸ List.mem_cons_self _ _
    · exact List.mem_cons_of_mem _ (h2 a h)
  · rw [he3] at hfr
    rcases List.mem_append.mp hfr with h | h
    · exact h3 fr h
    · have hfr0 : fr = fr0 := by simpa using h
      subst hfr0
      rw [hk]
      intro hkt0
      exact hnt (h1 k hkt0)

/-- The per-row body preserves the tracking invariant, whichever branch it
takes. -/
theorem processRow_TrackInv (cache : DimensionCache) (t0 : List InvKey)
    (st : ChunkState) (r : Row) (h : TrackInv t0 st) :
    TrackInv t0 (processRow cache st r) := by
  unfold processRow
  split
  · exact h
  split
  · exact h
  split
  · exact ⟨h.1, h.2.1, h.2.2⟩
  split
  · exact TrackInv_of_eq t0 st _ (rowKey r) rfl rfl rfl h
  split
  · exact TrackInv_of_eq t0 st _ (rowKey r) rfl rfl rfl h
  rename_i hnseen hntr hnm hnsome
  split
  · exact TrackInv_of_eq t0 st _ (rowKey r) rfl rfl rfl h
  split
  · exact TrackInv_of_eq t0 st _ (rowKey r) rfl rfl rfl h
  split
  · exact TrackInv_of_eq t0 st _ (rowKey r) rfl rfl rfl h
  split
  · exact TrackInv_of_eq t0 st _ (rowKey r) rfl rfl rfl h
  exact TrackInv_of_emit t0 st _ (rowKey r) (mkFactOf cache r) rfl rfl rfl rfl hntr h

theorem foldl_TrackInv (cache : DimensionCache) (t0 : List InvKey) :
    ∀ (rows : List Row) (st : ChunkState), TrackInv t0 st →
      TrackInv t0 (rows.foldl (processRow cache) st)
  | [], _, h => h
  | r :: rs, st, h =>
    foldl_TrackInv cache t0 rs (processRow cache st r)
      (processRow_TrackInv cache t0 st r h)

/-- The tracking invariant holds for the full chunk run, from the initial
tracker. -/
theorem process_chunk_TrackInv (chunk : List Row) (cache : DimensionCache)
    (t0 : List InvKey) : TrackInv t0 (process_chunk chunk cache t0) :=
  foldl_TrackInv cache t0 (sortByDate chunk) (initChunkState t0)
    ⟨fun _ h => h, fun _ h => (List.not_mem_nil _ h).elim,
     fun _ h => (List.not_mem_nil _ h).elim⟩

/-- The per-row body never removes a tracker entry. -/
theorem processRow_tracker_mono (cache : DimensionCache) (st : ChunkState)
    (r : Row) (k : InvKey) (hk : k ∈ st.tracker) :
    k ∈ (processRow cache st r).tracker := by
  unfold processRow
  split
  · exact hk
  split
  · exact hk
  split
  · exact hk
  split
  · exact List.mem_cons_of_mem _ hk
  split
  · exact List.mem_cons_of_mem _ hk
  split
  · exact List.mem_cons_of_mem _ hk
  split
  · exact List.mem_cons_of_mem _ hk
  split
  · exact List.mem_cons_of_mem _ hk
  split
  · exact List.mem_cons_of_mem _ hk
  exact List.mem_cons_of_mem _ hk

/-- When every check passes, the per-row body claims the key and appends the
fact record built from the row. -/
theorem processRow_emits (cache : DimensionCache) (st : ChunkState) (r : Row)
    (hIF : invoiceFalsy r.invoice = false)
    (hseen : rowKey r ∉ st.chunk_seen) (htr : rowKey r ∉ st.tracker)
    (hm : anyBadMeasure r = false)
    (hsome : ¬((safe_convert_to_int r.storeNumber).isNone ∨
               (safe_convert_to_int r.vendorNumber).isNone ∨
               (safe_convert_to_int r.itemNumber).isNone))
    (hks : falsyKey (cache.store_cache (storeNum r)) = false)
    (hkv : falsyKey (cache.vendor_cache (vendorNum r)) = false)
    (hkp : falsyKey (cache.product_cache (itemNum r)) = false)
    (hkd : falsyKey (cache.date_cache r.date) = false) :
    processRow cache st r =
      { claimKey st (rowKey r) with
          fact_records := st.fact_records ++ [mkFactOf cache r] } := by
  unfold processRow
  rw [if_neg (by simp [hIF]), if_neg hseen, if_neg htr, if_neg (by simp [hm]),
      if_neg hsome, if_neg (by simp [hks]), if_neg (by simp [hkv]),
      if_neg (by simp [hkp]), if_neg (by simp [hkd])]

/-- A row whose key was already seen inside the chunk is skipped with no state
change at all. -/
theorem processRow_seen (cache : DimensionCache) (st : ChunkState) (r : Row)
    (hIF : invoiceFalsy r.invoice = false)
    (hseen : rowKey r ∈ st.chunk_seen) :
    processRow cache st r = st := by
  unfold processRow
  rw [if_neg (by simp [hIF]), if_pos hseen]

/-- A store natural key resolving falsily (absent or surrogate key 0) skips
the row and records the store number as missing. -/
theorem processRow_missing_store (cache : DimensionCache) (st : ChunkState)
    (r : Row)
    (hIF : invoiceFalsy r.invoice = false)
    (hseen : rowKey r ∉ st.chunk_seen) (htr : rowKey r ∉ st.tracker)
    (hm : anyBadMeasure r = false)
    (hsome : ¬((safe_convert_to_int r.storeNumber).isNone ∨
               (safe_convert_to_int r.vendorNumber).isNone ∨
               (safe_convert_to_int r.itemNumber).isNone))
    (hks : falsyKey (cache.store_cache (storeNum r)) = true) :
    processRow cache st r =
      { claimKey st (rowKey r) with
          missing_stores := storeNum r :: st.missing_stores } := by
  unfold processRow
  rw [if_neg (by simp [hIF]), if_neg hseen, if_neg htr, if_neg (by simp [hm]),
      if_neg hsome, if_pos hks]

/-- A vendor natural key resolving falsily skips the row and records the
vendor number as missing. -/
theorem processRow_missing_vendor (cache : DimensionCache) (st : ChunkState)
    (r : Row)
    (hIF : invoiceFalsy r.invoice = false)
    (hseen : rowKey r ∉ st.chunk_seen) (htr : rowKey r ∉ st.tracker)
    (hm : anyBadMeasure r = false)
    (hsome : ¬((safe_convert_to_int r.storeNumber).isNone ∨
               (safe_convert_to_int r.vendorNumber).isNone ∨
               (safe_convert_to_int r.itemNumber).isNone))
    (hks : falsyKey (cache.store_cache (storeNum r)) = false)
    (hkv : falsyKey (cache.vendor_cache (vendorNum r)) = true) :
    processRow cache st r =
      { claimKey st (rowKey r) with
          missing_vendors := vendorNum r :: st.missing_vendors } := by
  unfold processRow
  rw [if_neg (by simp [hIF]), if_neg hseen, if_neg htr, if_neg (by simp [hm]),
      if_neg hsome, if_neg (by simp [hks]), if_pos hkv]

/-- A product natural key resolving falsily skips the row and records the
item number as missing. -/
theorem processRow_missing_product (cache : DimensionCache) (st : ChunkState)
    (r : Row)
    (hIF : invoiceFalsy r.invoice = false)
    (hseen : rowKey r ∉ st.chunk_seen) (htr : rowKey r ∉ st.tracker)
    (hm : anyBadMeasure r = false)
    (hsome : ¬((safe_convert_to_int r.storeNumber).isNone ∨
               (safe_convert_to_int r.vendorNumber).isNone ∨
               (safe_convert_to_int r.itemNumber).isNone))
    (hks : falsyKey (cache.store_cache (storeNum r)) = false)
    (hkv : falsyKey (cache.vendor_cache (vendorNum r)) = false)
    (hkp : falsyKey (cache.product_cache (itemNum r)) = true) :
    processRow cache st r =
      { claimKey st (rowKey r) with
          missing_products := itemNum r :: st.missing_products } := by
  unfold processRow
  rw [if_neg (by simp [hIF]), if_neg hseen, if_neg htr, if_neg (by simp [hm]),
      if_neg hsome, if_neg (by simp [hks]), if_neg (by simp [hkv]), if_pos hkp]

/-- A date resolving falsily skips the row silently: the key stays claimed and
no missing set is touched. -/
theorem processRow_missing_date (cache : DimensionCache) (st : ChunkState)
    (r : Row)
    (hIF : invoiceFalsy r.invoice = false)
    (hseen : rowKey r ∉ st.chunk_seen) (htr : rowKey r ∉ st.tracker)
    (hm : anyBadMeasure r = false)
    (hsome : ¬((safe_convert_to_int r.storeNumber).isNone ∨
               (safe_convert_to_int r.vendorNumber).isNone ∨
               (safe_convert_to_int r.itemNumber).isNone))
    (hks : falsyKey (cache.store_cache (storeNum r)) = false)
    (hkv : falsyKey (cache.vendor_cache (vendorNum r)) = false)
    (hkp : falsyKey (cache.product_cache (itemNum r)) = false)
    (hkd : falsyKey (cache.date_cache r.date) = true) :
    processRow cache st r = claimKey st (rowKey r) := by
  unfold processRow
  rw [if_neg (by simp [hIF]), if_neg hseen, if_neg htr, if_neg (by simp [hm]),
      if_neg hsome, if_neg (by simp [hks]), if_neg (by simp [hkv]),
      if_neg (by simp [hkp]), if_pos hkd]

/-- Sorting a two-row chunk whose first row is strictly earlier puts that row
first, whichever way the input was ordered. -/
theorem sortByDate_pair (r1 r2 : Row)
    (h12 : pdateLE r1.date r2.date = true)
    (h21 : pdateLE r2.date r1.date = false) :
    sortByDate [r1, r2] = [r1, r2] ∧ sortByDate [r2, r1] = [r1, r2] := by
  constructor
  · simp [sortByDate, insertByDate, h12]
  · simp [sortByDate, insertByDate, h21]

theorem measure_pos_of_badMeasure_false (o : Option ℚ)
    (h : badMeasure o = false) : ∃ q, o = some q ∧ 0 < q := by
  cases o with
  | none => simp [badMeasure] at h
  | some q =>
    simp only [badMeasure] at h
    exact ⟨q, rfl, lt_of_not_le (of_decide_eq_false h)⟩

/-- Unpacking the measures check: when no measure is bad, all six cells are
present and strictly positive. -/
theorem measures_of_anyBad_false (r : Row) (h : anyBadMeasure r = false) :
    (∃ q, r.bottleCost = some q ∧ 0 < q) ∧
    (∃ q, r.bottleRetail = some q ∧ 0 < q) ∧
    (∃ q, r.bottlesSold = some q ∧ 0 < q) ∧
    (∃ q, r.saleDollars = some q ∧ 0 < q) ∧
    (∃ q, r.volumeLiters = some q ∧ 0 < q) ∧
    (∃ q, r.volumeGallons = some q ∧ 0 < q) := by
  simp only [anyBadMeasure, requiredMeasures, List.any_cons, List.any_nil,
    Bool.or_eq_false_iff] at h
  obtain ⟨h1, h2, h3, h4, h5, h6, -⟩ := h
  exact ⟨measure_pos_of_badMeasure_false _ h1, measure_pos_of_badMeasure_false _ h2,
    measure_pos_of_badMeasure_false _ h3, measure_pos_of_badMeasure_false _ h4,
    measure_pos_of_badMeasure_false _ h5, measure_pos_of_badMeasure_false _ h6⟩

theorem pyIntOfRat_eq_floor (q : ℚ) (h : 0 ≤ q) : pyIntOfRat q = ⌊q⌋ := by
  unfold pyIntOfRat
  rw [if_pos h, Rat.floor_def, Int.ofNat_tdiv,
    Int.toNat_of_nonneg (Rat.num_nonneg.mpr h),
    Int.tdiv_eq_ediv (Rat.num_nonneg.mpr h) (Int.ofNat_nonneg q.den)]

theorem pyIntOfRat_nonneg (q : ℚ) (h : 0 ≤ q) : 0 ≤ pyIntOfRat q := by
  rw [pyIntOfRat_eq_floor q h]
  exact Int.le_floor.mpr (by exact_mod_cast h)

theorem pyIntOfRat_one_le (q : ℚ) (h : 1 ≤ q) : 1 ≤ pyIntOfRat q := by
  rw [pyIntOfRat_eq_floor q (le_trans zero_le_one h)]
  exact Int.le_floor.mpr (by exact_mod_cast h)

theorem processRow_MeasuresInv (cache : DimensionCache) (st : ChunkState)
    (r : Row) (h : MeasuresInv st) : MeasuresInv (processRow cache st r) := by
  unfold processRow
  split
  · exact h
  split
  · exact h
  split
  · exact h
  split
  · exact h
  split
  · exact h
  rename_i hnseen hntr hnm hnsome
  split
  · exact h
  split
  · exact h
  split
  · exact h
  split
  · exact h
  intro fr hfr
  rcases List.mem_append.mp hfr with hin | hin
  · exact h fr hin
  have hfr0 : fr = mkFactOf cache r := by simpa using hin
  subst hfr0
  have hm : anyBadMeasure r = false := by
    revert hnm
    cases anyBadMeasure r <;> simp
  obtain ⟨⟨q1, e1, p1⟩, ⟨q2, e2, p2⟩, ⟨q3, e3, p3⟩, ⟨q4, e4, p4⟩,
    ⟨q5, e5, p5⟩, ⟨q6, e6, p6⟩⟩ := measures_of_anyBad_false r hm
  refine ⟨?_, ?_, ?_, ?_, ?_, ?_⟩ <;>
    simp only [mkFactOf, e1, e2, e3, e4, e5, e6, Option.getD_some]
  · exact p1
  · exact p2
  · exact pyIntOfRat_nonneg q3 (le_of_lt p3)
  · exact p4
  · exact p5
  · exact p6

theorem foldl_MeasuresInv (cache : DimensionCache) :
    ∀ (rows : List Row) (st : ChunkState), MeasuresInv st →
      MeasuresInv (rows.foldl (processRow cache) st)
  | [], _, h => h
  | r :: rs, st, h =>
    foldl_MeasuresInv cache rs (processRow cache st r)
      (processRow_MeasuresInv cache st r h)

theorem process_chunk_MeasuresInv (chunk : List Row) (cache : DimensionCache)
    (t0 : List InvKey) : MeasuresInv (process_chunk chunk cache t0) :=
  foldl_MeasuresInv cache (sortByDate chunk) (initChunkState t0)
    (fun _ h => (List.not_mem_nil _ h).elim)

/-- A row with any bad measure leaves the emitted records unchanged. -/
theorem processRow_records_of_bad (cache : DimensionCache) (st : ChunkState)
    (r : Row) (hm : anyBadMeasure r = true) :
    (processRow cache st r).fact_records = st.fact_records := by
  unfold processRow
  split
  · rfl
  split
  · rfl
  split
  · rfl
  simp [hm, claimKey]

theorem digit_ne_char (c : Char) (h : isDigitChar c = true) (d : Char)
    (hd : ¬(48 ≤ d.toNat ∧ d.toNat ≤ 57)) : c ≠ d := by
  intro he
  subst he
  exact hd (of_decide_eq_true h)

theorem digit_not_space (c : Char) (h : isDigitChar c = true) :
    isSpaceChar c = false := by
  have hb : 48 ≤ c.toNat ∧ c.toNat ≤ 57 := of_decide_eq_true h
  unfold isSpaceChar
  apply decide_eq_false
  omega

theorem dropWhile_of_all_false (p : Char → Bool) :
    ∀ (l : List Char), (∀ c, c ∈ l → p c = false) → l.dropWhile p = l
  | [], _ => rfl
  | a :: l, h => by
    simp [List.dropWhile_cons, h a (List.mem_cons_self a l)]

theorem pyStrip_of_no_space (l : List Char)
    (h : ∀ c, c ∈ l → isSpaceChar c = false) : pyStrip l = l := by
  unfold pyStrip
  rw [dropWhile_of_all_false isSpaceChar l h,
    dropWhile_of_all_false isSpaceChar l.reverse
      (fun c hc => h c (List.mem_reverse.mp hc)),
    List.reverse_reverse]

theorem map_id_of_fix (f : Char → Char) :
    ∀ (l : List Char), (∀ c, c ∈ l → f c = c) → l.map f = l
  | [], _ => rfl
  | a :: l, h => by
    rw [List.map_cons, h a (List.mem_cons_self a l),
      map_id_of_fix f l (fun c hc => h c (List.mem_cons_of_mem a hc))]

theorem pyLowerChar_digit (c : Char) (h : isDigitChar c = true) :
    pyLowerChar c = c := by
  have hb : 48 ≤ c.toNat ∧ c.toNat ≤ 57 := of_decide_eq_true h
  unfold pyLowerChar
  rw [if_neg]
  omega

theorem pyLower_of_digits (l : List Char)
    (h : ∀ c, c ∈ l → isDigitChar c = true) : pyLower l = l :=
  map_id_of_fix pyLowerChar l (fun c hc => pyLowerChar_digit c (h c hc))

theorem pyDigitsAux_of_digits :
    ∀ (l : List Char), (∀ c, c ∈ l → isDigitChar c = true) →
      pyDigitsAux l = true
  | [], _ => rfl
  | a :: l, h => by
    have ha := h a (List.mem_cons_self a l)
    unfold pyDigitsAux
    rw [if_neg (digit_ne_char a ha '_' (by decide)), ha,
      pyDigitsAux_of_digits l (fun c hc => h c (List.mem_cons_of_mem a hc))]
    rfl

theorem dropUnderscores_of_digits :
    ∀ (l : List Char), (∀ c, c ∈ l → isDigitChar c = true) →
      dropUnderscores l = l
  | [], _ => rfl
  | a :: l, h => by
    have ha := h a (List.mem_cons_self a l)
    have hne : (a != '_') = true :=
      bne_iff_ne.mpr (digit_ne_char a ha '_' (by decide))
    unfold dropUnderscores
    rw [List.filter_cons, if_pos hne]
    have ih := dropUnderscores_of_digits l
      (fun c hc => h c (List.mem_cons_of_mem a hc))
    unfold dropUnderscores at ih
    rw [ih]

theorem pyIntBody_of_digits (a : Char) (l : List Char)
    (h : ∀ c, c ∈ a :: l → isDigitChar c = true) :
    pyIntBody (a :: l) = some (digitsToNat (a :: l) : Int) := by
  have ha := h a (List.mem_cons_self a l)
  simp only [pyIntBody]
  rw [if_neg (digit_ne_char a ha '+' (by decide)),
    if_neg (digit_ne_char a ha '-' (by decide)), if_pos, dropUnderscores_of_digits _ h]
  simp only [validIntBody]
  rw [ha, pyDigitsAux_of_digits l (fun c hc => h c (List.mem_cons_of_mem a hc))]
  rfl

theorem pyIntOfChars_of_digits (a : Char) (l : List Char)
    (h : ∀ c, c ∈ a :: l → isDigitChar c = true) :
    pyIntOfChars (a :: l) = some (digitsToNat (a :: l) : Int) := by
  unfold pyIntOfChars
  rw [pyStrip_of_no_space _ (fun c hc => digit_not_space c (h c hc)),
    pyIntBody_of_digits a l h]

theorem safeConvertChars_x_digits (a : Char) (l : List Char)
    (h : ∀ c, c ∈ a :: l → isDigitChar c = true) :
    safeConvertChars ('x' :: a :: l) = some (digitsToNat (a :: l) : Int) := by
  have hs : ∀ c, c ∈ 'x' :: a :: l → isSpaceChar c = false := by
    intro c hc
    rcases List.mem_cons.mp hc with h1 | h1
    · subst h1; decide
    · exact digit_not_space c (h c h1)
  have hl : ∀ c, c ∈ 'x' :: a :: l → pyLowerChar c = c := by
    intro c hc
    rcases List.mem_cons.mp hc with h1 | h1
    · subst h1; decide
    · exact pyLowerChar_digit c (h c h1)
  unfold safeConvertChars
  rw [pyStrip_of_no_space _ hs]
  unfold pyLower
  rw [map_id_of_fix pyLowerChar _ hl]
  simp only [stripLeadingX]
  rw [if_pos trivial, pyIntOfChars_of_digits a l h]

theorem safeConvertChars_digits (a : Char) (l : List Char)
    (h : ∀ c, c ∈ a :: l → isDigitChar c = true) :
    safeConvertChars (a :: l) = some (digitsToNat (a :: l) : Int) := by
  have ha := h a (List.mem_cons_self a l)
  unfold safeConvertChars
  rw [pyStrip_of_no_space _ (fun c hc => digit_not_space c (h c hc))]
  unfold pyLower
  rw [map_id_of_fix pyLowerChar _ (fun c hc => pyLowerChar_digit c (h c hc))]
  simp only [stripLeadingX]
  rw [if_neg (digit_ne_char a ha 'x' (by decide)), pyIntOfChars_of_digits a l h]

theorem foldl_max_stays (t : Nat) :
    ∀ (ps : List (Nat × List InvKey)) (best : Nat × List InvKey),
      best.1 = t → (∀ q, q ∈ ps → q.1 ≤ t) →
      ps.foldl (fun best q => if best.1 < q.1 then q else best) best = best
  | [], _, _, _ => rfl
  | q :: ps, best, hb, hq => by
    have h1 : ¬(best.1 < q.1) := by
      rw [hb]
      exact not_lt.mpr (hq q (List.mem_cons_self q ps))
    simp only [List.foldl_cons, if_neg h1]
    exact foldl_max_stays t ps best hb
      (fun p hp => hq p (List.mem_cons_of_mem q hp))

/-- After a save whose timestamp is at least every timestamp already in the
store, the latest checkpoint is the saved one. -/
theorem load_after_save (t : Nat) (tracker : List InvKey)
    (store : CheckpointStore) (h : ∀ p, p ∈ store → p.1 ≤ t) :
    load_tracker_checkpoint (save_tracker_checkpoint t tracker store) =
      some tracker := by
  unfold load_tracker_checkpoint save_tracker_checkpoint pickLatest
  simp only [Option.map]
  rw [foldl_max_stays t _ (t, tracker) rfl
    (fun q hq => h q (List.mem_of_mem_filter hq))]

/-- A serialized caller that finds the key present returns false and leaves
the tracker unchanged, forever. -/
theorem runClaimsSeq_present (k : InvKey) :
    ∀ (n : Nat) (tr : List InvKey), k ∈ tr →
      runClaimsSeq tr k n = List.replicate n false
  | 0, _, _ => rfl
  | n + 1, tr, h => by
    simp only [runClaimsSeq, tryClaimSeq, if_pos h]
    rw [runClaimsSeq_present k n tr h]
    rfl

theorem check_existing_base :
    ∀ (rows tracker : List InvKey) (k : InvKey), k ∈ tracker →
      k ∈ check_existing_invoices rows tracker
  | [], _, _, h => h
  | r :: rs, t, k, h =>
    check_existing_base rs (r :: t) k (List.mem_cons_of_mem r h)

theorem check_existing_mem :
    ∀ (rows tracker : List InvKey) (k : InvKey), k ∈ rows →
      k ∈ check_existing_invoices rows tracker
  | [], _, k, h => absurd h (List.not_mem_nil k)
  | r :: rs, t, k, h => by
    rcases List.mem_cons.mp h with h1 | h1
    · exact h1 ▸ check_existing_base rs (r :: t) r (List.mem_cons_self r t)
    · exact check_existing_mem rs (r :: t) k h1

/-- C1 counterexample.  The claim asserts that of all concurrent callers
racing on one InvoiceKey exactly one sees it absent.  The membership test
(line 505) and the insertion (line 511) are separate statements with no lock,
so the interleaving check-check-insert-insert is a possible execution under
the GIL; in it both callers observe the key absent and both proceed, so the
claim as stated is false. -/
theorem C1_counterexample :
    interleavedClaims [] ("INV100", 2020) = (true, true) := by decide

/-- C1 amended.  When the check and the insert of each caller run back to
back with no interleaving, which is how the program executes them (the single
main loop is the only caller of `process_chunk`), exactly the first of the
callers racing on an unclaimed key sees it absent and every later caller sees
it present. -/
theorem C1_amended_thm (t0 : List InvKey) (k : InvKey) (n : Nat)
    (h : k ∉ t0) :
    runClaimsSeq t0 k (n + 1) = true :: List.replicate n false := by
  simp only [runClaimsSeq, tryClaimSeq, if_neg h]
  rw [runClaimsSeq_present k n (k :: t0) (List.mem_cons_self k t0)]

/-- C1 witness: three serialized callers on a fresh key; only the first
succeeds. -/
theorem C1_witness :
    runClaimsSeq [] ("INV100", 2020) 3 = [true, false, false] :=
  C1_amended_thm [] ("INV100", 2020) 2 (by decide)

/-- C2.  For every chunk and every initial tracker state, no emitted record
carries a key already present when the chunk began; and seeding the tracker
from the existing fact table puts every existing key into it, so a seeded or
checkpoint-restored tracker rejects exactly those keys. -/
theorem C2_thm :
    (∀ (chunk : List Row) (cache : DimensionCache) (t0 : List InvKey)
       (fr : FactRecord), fr ∈ (process_chunk chunk cache t0).fact_records →
       (fr.invoice_item_number, fr.year) ∉ t0) ∧
    (∀ (rows tracker : List InvKey) (k : InvKey), k ∈ rows →
       k ∈ check_existing_invoices rows tracker) :=
  ⟨fun chunk cache t0 fr hfr => (process_chunk_TrackInv chunk cache t0).2.2 fr hfr,
   check_existing_mem⟩

/-- C2 witness: a concrete run emits a record whose key is provably absent
from the seeded tracker, and a seeded key is in the tracker. -/
theorem C2_witness :
    (exFact.invoice_item_number, exFact.year) ∉ [(("OLD", 2019) : InvKey)] ∧
    (("OLD", 2019) : InvKey) ∈ check_existing_invoices [("OLD", 2019)] [] :=
  ⟨C2_thm.1 [exRowGood] exCache [("OLD", 2019)] exFact (by decide),
   C2_thm.2 [("OLD", 2019)] [] ("OLD", 2019) (by decide)⟩

/-- C3.  The tracker only grows: the per-row body never removes an entry,
every key of the initial tracker survives the whole chunk, and every key
claimed for a row of the chunk (in particular by rows later rejected by a
validation step) is still in the tracker when the chunk ends. -/
theorem C3_thm :
    (∀ (cache : DimensionCache) (st : ChunkState) (r : Row) (k : InvKey),
       k ∈ st.tracker → k ∈ (processRow cache st r).tracker) ∧
    (∀ (chunk : List Row) (cache : DimensionCache) (t0 : List InvKey)
       (k : InvKey), k ∈ t0 → k ∈ (process_chunk chunk cache t0).tracker) ∧
    (∀ (chunk : List Row) (cache : DimensionCache) (t0 : List InvKey)
       (k : InvKey), k ∈ (process_chunk chunk cache t0).chunk_seen →
       k ∈ (process_chunk chunk cache t0).tracker) :=
  ⟨processRow_tracker_mono,
   fun chunk cache t0 k hk => (process_chunk_TrackInv chunk cache t0).1 k hk,
   fun chunk cache t0 k hk => (process_chunk_TrackInv chunk cache t0).2.1 k hk⟩

/-- C3 witness: the key claimed by an invalid row (measures fail after the
claim) is still in the tracker at chunk end, and a pre-existing key survives
one row step. -/
theorem C3_witness :
    (("INV100", 2020) : InvKey) ∈ (process_chunk [c4RowBad] exCache []).tracker ∧
    (("P", 2000) : InvKey) ∈
      (processRow exCache (initChunkState [("P", 2000)]) exRowGood).tracker :=
  ⟨C3_thm.2.2 [c4RowBad] exCache [] ("INV100", 2020) (by decide),
   C3_thm.1 exCache (initChunkState [("P", 2000)]) exRowGood ("P", 2000) (by decide)⟩

/-- C4 counterexample.  A chunk of two rows with the same invoice identifier
INV100 and year 2020 but different measures for which `process_chunk`
produces no record at all: the first row under the date sort claims the key
and is then dropped by the measures check, and the second row is dropped by
the chunk-seen set.  The claim predicted exactly one record. -/
theorem C4_counterexample :
    c4RowBad.invoice = some "INV100" ∧ c4RowGood.invoice = some "INV100" ∧
    c4RowBad.date.y = 2020 ∧ c4RowGood.date.y = 2020 ∧
    c4RowBad.bottlesSold ≠ c4RowGood.bottlesSold ∧
    (process_chunk [c4RowBad, c4RowGood] exCache []).fact_records = [] := by
  decide

/-- C4 amended.  For a chunk of two rows sharing one invoice key, with the
first strictly earlier in date, whose key is unclaimed, and whose
first-processed row passes every later validation, `process_chunk` emits
exactly one record, the one built from the first row under the date sort;
without those validation hypotheses at most this one record is emitted. -/
theorem C4_amended_thm (r1 r2 : Row) (cache : DimensionCache)
    (t0 : List InvKey) (chunk : List Row)
    (hc : chunk = [r1, r2] ∨ chunk = [r2, r1])
    (hIF : invoiceFalsy r1.invoice = false)
    (hinv : r2.invoice = r1.invoice) (hy : r2.date.y = r1.date.y)
    (h12 : pdateLE r1.date r2.date = true)
    (h21 : pdateLE r2.date r1.date = false)
    (ht0 : rowKey r1 ∉ t0)
    (hm : anyBadMeasure r1 = false)
    (hsome : ¬((safe_convert_to_int r1.storeNumber).isNone ∨
               (safe_convert_to_int r1.vendorNumber).isNone ∨
               (safe_convert_to_int r1.itemNumber).isNone))
    (hks : falsyKey (cache.store_cache (storeNum r1)) = false)
    (hkv : falsyKey (cache.vendor_cache (vendorNum r1)) = false)
    (hkp : falsyKey (cache.product_cache (itemNum r1)) = false)
    (hkd : falsyKey (cache.date_cache r1.date) = false) :
    (process_chunk chunk cache t0).fact_records = [mkFactOf cache r1] := by
  have hsort : sortByDate chunk = [r1, r2] := by
    rcases hc with h | h <;> rw [h]
    · exact (sortByDate_pair r1 r2 h12 h21).1
    · exact (sortByDate_pair r1 r2 h12 h21).2
  unfold process_chunk
  rw [hsort]
  simp only [List.foldl_cons, List.foldl_nil]
  rw [processRow_emits cache (initChunkState t0) r1 hIF
    (List.not_mem_nil (rowKey r1)) ht0 hm hsome hks hkv hkp hkd]
  have hkey : rowKey r2 = rowKey r1 := by
    unfold rowKey
    rw [hinv, hy]
  rw [processRow_seen cache _ r2 (by rw [hinv]; exact hIF)
    (by rw [hkey]; exact List.mem_cons_self _ _)]
  rfl

/-- C4 witness: two valid rows with the same key and different measures give
exactly the record of the earlier row, here with the input in reversed
order. -/
theorem C4_witness :
    (process_chunk [c4wRow2, c4wRow1] exCache []).fact_records =
      [mkFactOf exCache c4wRow1] :=
  C4_amended_thm c4wRow1 c4wRow2 exCache [] [c4wRow2, c4wRow1]
    (Or.inr rfl) (by decide) (by decide) (by decide) (by decide) (by decide)
    (by decide) (by decide) (by decide) (by decide) (by decide) (by decide)
    (by decide)

/-- C5 counterexample.  A chunk whose one row has Bottles Sold 1/2 (positive,
so the measures check passes) is loaded with `bottles_sold = int(1/2) = 0`,
so not every emitted record has all six measures strictly positive. -/
theorem C5_counterexample :
    ¬(∀ fr, fr ∈ (process_chunk [c5Row] exCache []).fact_records →
        0 < fr.bottles_sold) := by decide

/-- C5 amended.  Every emitted record has the five rational measures strictly
positive and `bottles_sold` non-negative; `bottles_sold` is the truncation of
a strictly positive source value and is itself at least 1 whenever that
source value is (in particular for every integral source value); and a row
with a missing or non-positive measure is skipped, emitting nothing. -/
theorem C5_amended_thm :
    (∀ (chunk : List Row) (cache : DimensionCache) (t0 : List InvKey)
       (fr : FactRecord), fr ∈ (process_chunk chunk cache t0).fact_records →
         0 < fr.state_bottle_cost ∧ 0 < fr.state_bottle_retail ∧
         0 ≤ fr.bottles_sold ∧ 0 < fr.sale_dollars ∧
         0 < fr.volume_sold_liters ∧ 0 < fr.volume_sold_gallons) ∧
    (∀ q : ℚ, 1 ≤ q → 1 ≤ pyIntOfRat q) ∧
    (∀ (cache : DimensionCache) (st : ChunkState) (r : Row),
       anyBadMeasure r = true →
       (processRow cache st r).fact_records = st.fact_records) :=
  ⟨fun chunk cache t0 fr hfr => process_chunk_MeasuresInv chunk cache t0 fr hfr,
   pyIntOfRat_one_le,
   processRow_records_of_bad⟩

/-- C5 witness: a concrete emitted record with positive measures, the
truncation bound at 6, and the skip of the Bottles Sold -5 row. -/
theorem C5_witness :
    (0 < exFact.state_bottle_cost ∧ 0 ≤ exFact.bottles_sold) ∧
    1 ≤ pyIntOfRat 6 ∧
    (processRow exCache (initChunkState []) c4RowBad).fact_records = [] :=
  ⟨⟨(C5_amended_thm.1 [exRowGood] exCache [] exFact (by decide)).1,
    (C5_amended_thm.1 [exRowGood] exCache [] exFact (by decide)).2.2.1⟩,
   C5_amended_thm.2.1 6 (by decide),
   C5_amended_thm.2.2 exCache (initChunkState []) c4RowBad (by decide)⟩

/-- C6 counterexample.  With an empty date table and a date cache of size 1
the cardinalities differ, yet `validate_date_keys` does not raise, because
its whole check body is guarded by the non-emptiness of the table. -/
theorem C6_counterexample :
    validate_date_keys [] 1 = Except.ok () ∧
    List.length ([] : List (Int × PDate)) ≠ 1 :=
  ⟨rfl, by decide⟩

/-- C6 amended.  The product validation raises exactly on a cardinality
mismatch; the date validation raises exactly on a mismatch whenever the date
table is non-empty, and equal cardinalities always pass, but an empty date
table is never flagged whatever the cache size. -/
theorem C6_amended_thm :
    (∀ (dbDates : List (Int × PDate)) (cacheSize : Nat), dbDates ≠ [] →
       (validate_date_keys dbDates cacheSize = Except.ok () ↔
         dbDates.length = cacheSize)) ∧
    (∀ (dbDates : List (Int × PDate)) (cacheSize : Nat),
       dbDates.length = cacheSize →
       validate_date_keys dbDates cacheSize = Except.ok ()) ∧
    (∀ (dbCount cacheSize : Nat),
       validate_product_cache dbCount cacheSize = Except.ok () ↔
         cacheSize = dbCount) := by
  refine ⟨?_, ?_, ?_⟩
  · intro db cs hne
    cases db with
    | nil => exact absurd rfl hne
    | cons a l =>
      simp only [validate_date_keys]
      constructor
      · intro h
        by_contra hc
        rw [if_pos hc] at h
        exact Except.noConfusion h
      · intro h
        rw [if_neg (by simp [h])]
  · intro db cs h
    cases db with
    | nil => rfl
    | cons a l =>
      simp only [validate_date_keys]
      rw [if_neg (by simp [h])]
  · intro dbc cs
    unfold validate_product_cache
    constructor
    · intro h
      by_contra hc
      rw [if_pos hc] at h
      exact Except.noConfusion h
    · intro h
      rw [if_neg (by simp [h])]

/-- C6 witness: a one-row date table with a cache of size 1 passes, and equal
product counts pass. -/
theorem C6_witness :
    validate_date_keys [((1 : Int), (⟨2020, 1⟩ : PDate))] 1 = Except.ok () ∧
    validate_product_cache 5 5 = Except.ok () :=
  ⟨(C6_amended_thm.1 [(1, ⟨2020, 1⟩)] 1 (by decide)).mpr (by decide),
   (C6_amended_thm.2.2 5 5).mpr rfl⟩

/-- C7.  Saving the tracker and then loading the latest checkpoint returns an
identical membership set, provided the save timestamp is at least every
timestamp already in the store (which monotone time guarantees, since every
existing checkpoint was written earlier); and loading from an empty store
returns absent.  Loading always selects the highest embedded timestamp. -/
theorem C7_thm :
    (∀ (t : Nat) (tracker : List InvKey) (store : CheckpointStore),
       (∀ p, p ∈ store → p.1 ≤ t) →
       load_tracker_checkpoint (save_tracker_checkpoint t tracker store) =
         some tracker) ∧
    load_tracker_checkpoint [] = none :=
  ⟨load_after_save, rfl⟩

/-- C7 witness: saving at timestamp 9 over checkpoints 3 and 7 and loading
returns exactly the saved membership set. -/
theorem C7_witness :
    load_tracker_checkpoint
      (save_tracker_checkpoint 9 [("INV100", 2020)]
        [(3, []), (7, [("A", 1999)])]) = some [("INV100", 2020)] :=
  C7_thm.1 9 [("INV100", 2020)] [(3, []), (7, [("A", 1999)])] (by decide)

/-- C8.  The claim (and the source comment at line 321, Will now never be 0)
say the loaded bottle volume is strictly positive, with missing or
non-positive inputs mapped to 750.  Missing and non-positive inputs are
indeed mapped to 750, but the input 1/2 passes the non-positivity replacement
untouched and `int(float(0.5))` then loads 0: the code contradicts its own
comment, so this is a code bug, evaluated here at the failing input. -/
theorem C8_thm :
    loadedBottleVolume none = 750 ∧
    loadedBottleVolume (some (-3)) = 750 ∧
    loadedBottleVolume (some 0) = 750 ∧
    loadedBottleVolume (some (mkRat 1 2)) = 0 ∧
    ¬(0 < loadedBottleVolume (some (mkRat 1 2))) := by decide

/-- C9 counterexample.  The claim says any non-numeric single-character
prefix is stripped before parsing; but `safe_convert_to_int` strips only the
character x, so the value y123 yields absent instead of 123. -/
theorem C9_counterexample :
    safe_convert_to_int (some "y123") ≠ some 123 ∧
    safe_convert_to_int (some "y123") = none := by decide

/-- C9 amended.  Only the prefix character x (case-insensitively, after
whitespace stripping) is stripped before integer parsing: for every digit
string the x-prefixed form and the plain form both parse to the digit value;
every other failure yields absent (`none`) rather than an exception, the
model being total. -/
theorem C9_amended_thm (a : Char) (l : List Char)
    (h : ∀ c, c ∈ a :: l → isDigitChar c = true) :
    safe_convert_to_int (some (String.mk ('x' :: a :: l))) =
      some (digitsToNat (a :: l) : Int) ∧
    safe_convert_to_int (some (String.mk (a :: l))) =
      some (digitsToNat (a :: l) : Int) :=
  ⟨safeConvertChars_x_digits a l h, safeConvertChars_digits a l h⟩

/-- C9 witness: x123 and 123 both parse to 123. -/
theorem C9_witness :
    safe_convert_to_int (some (String.mk ['x', '1', '2', '3'])) = some 123 ∧
    safe_convert_to_int (some (String.mk ['1', '2', '3'])) = some 123 :=
  ⟨(C9_amended_thm '1' ['2', '3'] (by decide)).1,
   (C9_amended_thm '1' ['2', '3'] (by decide)).2⟩

/-- C10.  A store, vendor or product natural key that the cache maps to the
surrogate key 0 is treated as unresolved because the lookup is tested for
falsiness: the row is skipped, no record is emitted, and the natural key is
recorded in the corresponding missing set; a date mapped to 0 likewise skips
the row, silently, leaving every missing set untouched. -/
theorem C10_thm :
    (∀ (cache : DimensionCache) (st : ChunkState) (r : Row),
       invoiceFalsy r.invoice = false → rowKey r ∉ st.chunk_seen →
       rowKey r ∉ st.tracker → anyBadMeasure r = false →
       ¬((safe_convert_to_int r.storeNumber).isNone ∨
         (safe_convert_to_int r.vendorNumber).isNone ∨
         (safe_convert_to_int r.itemNumber).isNone) →
       cache.store_cache (storeNum r) = some 0 →
       (processRow cache st r).fact_records = st.fact_records ∧
       storeNum r ∈ (processRow cache st r).missing_stores) ∧
    (∀ (cache : DimensionCache) (st : ChunkState) (r : Row),
       invoiceFalsy r.invoice = false → rowKey r ∉ st.chunk_seen →
       rowKey r ∉ st.tracker → anyBadMeasure r = false →
       ¬((safe_convert_to_int r.storeNumber).isNone ∨
         (safe_convert_to_int r.vendorNumber).isNone ∨
         (safe_convert_to_int r.itemNumber).isNone) →
       falsyKey (cache.store_cache (storeNum r)) = false →
       cache.vendor_cache (vendorNum r) = some 0 →
       (processRow cache st r).fact_records = st.fact_records ∧
       vendorNum r ∈ (processRow cache st r).missing_vendors) ∧
    (∀ (cache : DimensionCache) (st : ChunkState) (r : Row),
       invoiceFalsy r.invoice = false → rowKey r ∉ st.chunk_seen →
       rowKey r ∉ st.tracker → anyBadMeasure r = false →
       ¬((safe_convert_to_int r.storeNumber).isNone ∨
         (safe_convert_to_int r.vendorNumber).isNone ∨
         (safe_convert_to_int r.itemNumber).isNone) →
       falsyKey (cache.store_cache (storeNum r)) = false →
       falsyKey (cache.vendor_cache (vendorNum r)) = false →
       cache.product_cache (itemNum r) = some 0 →
       (processRow cache st r).fact_records = st.fact_records ∧
       itemNum r ∈ (processRow cache st r).missing_products) ∧
    (∀ (cache : DimensionCache) (st : ChunkState) (r : Row),
       invoiceFalsy r.invoice = false → rowKey r ∉ st.chunk_seen →
       rowKey r ∉ st.tracker → anyBadMeasure r = false →
       ¬((safe_convert_to_int r.storeNumber).isNone ∨
         (safe_convert_to_int r.vendorNumber).isNone ∨
         (safe_convert_to_int r.itemNumber).isNone) →
       falsyKey (cache.store_cache (storeNum r)) = false →
       falsyKey (cache.vendor_cache (vendorNum r)) = false →
       falsyKey (cache.product_cache (itemNum r)) = false →
       cache.date_cache r.date = some 0 →
       (processRow cache st r).fact_records = st.fact_records ∧
       (processRow cache st r).missing_stores = st.missing_stores ∧
       (processRow cache st r).missing_vendors = st.missing_vendors ∧
       (processRow cache st r).missing_products = st.missing_products) := by
  refine ⟨?_, ?_, ?_, ?_⟩
  · intro cache st r hIF hseen htr hm hsome hs0
    rw [processRow_missing_store cache st r hIF hseen htr hm hsome
      (by rw [hs0]; rfl)]
    exact ⟨rfl, List.mem_cons_self _ _⟩
  · intro cache st r hIF hseen htr hm hsome hks hv0
    rw [processRow_missing_vendor cache st r hIF hseen htr hm hsome hks
      (by rw [hv0]; rfl)]
    exact ⟨rfl, List.mem_cons_self _ _⟩
  · intro cache st r hIF hseen htr hm hsome hks hkv hp0
    rw [processRow_missing_product cache st r hIF hseen htr hm hsome hks hkv
      (by rw [hp0]; rfl)]
    exact ⟨rfl, List.mem_cons_self _ _⟩
  · intro cache st r hIF hseen htr hm hsome hks hkv hkp hd0
    rw [processRow_missing_date cache st r hIF hseen htr hm hsome hks hkv hkp
      (by rw [hd0]; rfl)]
    exact ⟨rfl, rfl, rfl, rfl⟩

/-- C10 witness: a row whose store resolves to 0 emits nothing and lands in
the missing-store set; a row whose date resolves to 0 emits nothing and
touches no missing set. -/
theorem C10_witness :
    ((processRow exCache (initChunkState []) c10RowStore).fact_records = [] ∧
     storeNum c10RowStore ∈
       (processRow exCache (initChunkState []) c10RowStore).missing_stores) ∧
    ((processRow exCache (initChunkState []) c10RowDate).fact_records = [] ∧
     (processRow exCache (initChunkState []) c10RowDate).missing_stores = [] ∧
     (processRow exCache (initChunkState []) c10RowDate).missing_vendors = [] ∧
     (processRow exCache (initChunkState []) c10RowDate).missing_products = []) :=
  ⟨C10_thm.1 exCache (initChunkState []) c10RowStore (by decide) (by decide)
     (by decide) (by decide) (by decide) (by decide),
   C10_thm.2.2.2 exCache (initChunkState []) c10RowDate (by decide) (by decide)
     (by decide) (by decide) (by decide) (by decide) (by decide) (by decide)
     (by decide)⟩
